import Mathlib

/-!
Shallow embedding of `system-utility/system_monitor.py` (class
`SystemHealthMonitor`) and proofs about its check-diff-report engine.

External effects (subprocess output, psutil process enumeration, the HTTP
client, the durable files) are modelled as explicit oracle values passed to
each function; machine booleans and strings are Lean `Bool` and `String`;
Python exceptions are modelled with `Except` (a constructor per exception
class that the claims distinguish).
-/

/-- Python values produced by `json.load`. JSON `null` decodes to the Python
object `None`, so `Json.null` also stands for `None` (in particular for the
`self.last_state = None` initial value). Numbers are modelled as integers. -/
inductive Json where
  | null
  | bool (b : Bool)
  | num (n : Int)
  | str (s : String)
  | arr (xs : List Json)
  | obj (fields : List (String × Json))

/-- Python truthiness (`bool(x)`) on the modelled values: `None`, `False`,
`0`, the empty string, the empty list and the empty dict are falsy. -/
def truthy : Json → Bool
  | .null => false
  | .bool b => b
  | .num n => n != 0
  | .str s => decide (s ≠ "")
  | .arr xs => !xs.isEmpty
  | .obj fs => !fs.isEmpty

/-- Exception classes the embedding distinguishes. -/
inductive PyError where
  | osError
  | keyError
  | typeError
  | attributeError
deriving DecidableEq, Repr

/-- Boolean prefix test on character lists. -/
def charsLeading : List Char → List Char → Bool
  | [], _ => true
  | _ :: _, [] => false
  | a :: as, b :: bs => a == b && charsLeading as bs

/-- Boolean contiguous-infix test on character lists. -/
def charsContains (p : List Char) : List Char → Bool
  | [] => charsLeading p []
  | c :: rest => charsLeading p (c :: rest) || charsContains p rest

/-- Python substring containment, `sub in s`. -/
def pyIn (sub s : String) : Bool :=
  charsContains sub.toList s.toList

/-- Accumulator pass behind `pySplitWs`: `cur` holds the characters of the
piece under construction, in reverse. -/
def splitWsAux : List Char → List Char → List String
  | cur, [] => if cur.isEmpty then [] else [String.mk cur.reverse]
  | cur, c :: rest =>
    if c.isWhitespace then
      if cur.isEmpty then splitWsAux [] rest
      else String.mk cur.reverse :: splitWsAux [] rest
    else splitWsAux (c :: cur) rest

/-- Python `str.split()` with no argument: split on runs of whitespace and
drop empty pieces. -/
def pySplitWs (s : String) : List String :=
  splitWsAux [] s.toList

/-- Accumulator pass behind `pySplitlines`, recognising `\r\n`, `\r` and
`\n` as line terminators. -/
def splitlinesAux : List Char → List Char → List String
  | cur, [] => if cur.isEmpty then [] else [String.mk cur.reverse]
  | cur, '\r' :: '\n' :: rest => String.mk cur.reverse :: splitlinesAux [] rest
  | cur, '\r' :: rest => String.mk cur.reverse :: splitlinesAux [] rest
  | cur, '\n' :: rest => String.mk cur.reverse :: splitlinesAux [] rest
  | cur, c :: rest => splitlinesAux (c :: cur) rest

/-- Python `str.splitlines()`: a trailing terminator does not produce a
final empty line. -/
def pySplitlines (s : String) : List String :=
  splitlinesAux [] s.toList

/-- Drop leading whitespace from a character list. -/
def dropLeadingWs : List Char → List Char
  | [] => []
  | c :: rest => if c.isWhitespace then dropLeadingWs rest else c :: rest

/-- Python `str.strip()`: remove leading and trailing whitespace. -/
def pyStrip (s : String) : String :=
  String.mk ((dropLeadingWs (dropLeadingWs s.toList).reverse).reverse)

/-- Python `str.lower()` over the ASCII range. -/
def pyLower (s : String) : String :=
  String.mk (s.toList.map Char.toLower)

/-- Value of one hexadecimal digit character. -/
def hexDigitVal (c : Char) : Option Nat :=
  if c.isDigit then some (c.toNat - 48)
  else if 'a' ≤ c ∧ c ≤ 'f' then some (c.toNat - 87)
  else if 'A' ≤ c ∧ c ≤ 'F' then some (c.toNat - 55)
  else none

/-- Digits-only part of `int(s, 16)`: fails on an empty digit list or a
non-hexadecimal character. -/
def parseHexDigits (cs : List Char) : Option Nat :=
  match cs with
  | [] => none
  | _ =>
    cs.foldl (fun acc c => acc.bind (fun n => (hexDigitVal c).map (fun d => n * 16 + d)))
      (some 0)

/-- Python `int(s, 16)` for the token shapes that `str.split()` yields: an
optional sign, an optional `0x` prefix, then hexadecimal digits. -/
def parseHexInt (s : String) : Option Int :=
  let cs := s.toList
  let signed : Int × List Char :=
    match cs with
    | '-' :: r => (-1, r)
    | '+' :: r => (1, r)
    | _ => (1, cs)
  let ds : List Char :=
    match signed.2 with
    | '0' :: 'x' :: r => r
    | '0' :: 'X' :: r => r
    | _ => signed.2
  (parseHexDigits ds).map (fun n => signed.1 * (n : Int))

/-- Value of one decimal digit character. -/
def decDigitVal (c : Char) : Option Nat :=
  if c.isDigit then some (c.toNat - 48) else none

/-- Digits-only part of `int(s)`. -/
def parseDecDigits (cs : List Char) : Option Nat :=
  match cs with
  | [] => none
  | _ =>
    cs.foldl (fun acc c => acc.bind (fun n => (decDigitVal c).map (fun d => n * 10 + d)))
      (some 0)

/-- Python `int(s)` for whitespace-free tokens: optional sign then decimal
digits. -/
def parseDecInt (s : String) : Option Int :=
  let cs := s.toList
  let signed : Int × List Char :=
    match cs with
    | '-' :: r => (-1, r)
    | '+' :: r => (1, r)
    | _ => (1, cs)
  (parseDecDigits signed.2).map (fun n => signed.1 * (n : Int))

/-- Outcome of one `subprocess.run` call: captured stdout plus return code,
or the call raised. -/
inductive CmdResult where
  | output (stdout : String) (returncode : Int)
  | raises
deriving Repr

/-- Outcome of `psutil.process_iter([name])`: the `info[name]` attribute of
each enumerated process (`none` when psutil could not fill it in), or the
enumeration itself raised. -/
inductive PsutilResult where
  | procs (names : List (Option String))
  | raises
deriving Repr

/-- The four check results of one cycle, keyed as in `check_all`. -/
structure Checks where
  disk_encryption : Bool
  os_updated : Bool
  antivirus_active : Bool
  sleep_settings_compliant : Bool
deriving DecidableEq, Repr

/-- The dict built by `check_all`. -/
structure Snapshot where
  machine_id : String
  timestamp : String
  os_type : String
  os_version : String
  checks : Checks
deriving DecidableEq, Repr

/-- Fixed key set of the checks dict. -/
def checksKeys : List String :=
  ["disk_encryption", "os_updated", "antivirus_active", "sleep_settings_compliant"]

/-- Field list of the JSON rendering of a checks dict, in source order. -/
def checksFields (c : Checks) : List (String × Json) :=
  [("disk_encryption", .bool c.disk_encryption),
   ("os_updated", .bool c.os_updated),
   ("antivirus_active", .bool c.antivirus_active),
   ("sleep_settings_compliant", .bool c.sleep_settings_compliant)]

/-- JSON rendering of a checks dict. -/
def Checks.toJson (c : Checks) : Json :=
  .obj (checksFields c)

/-- JSON rendering of a snapshot, mirroring the dict literal of `check_all`
and the layout `_save_state` persists. -/
def Snapshot.toJson (s : Snapshot) : Json :=
  .obj [("machine_id", .str s.machine_id),
        ("timestamp", .str s.timestamp),
        ("os_type", .str s.os_type),
        ("os_version", .str s.os_version),
        ("checks", Checks.toJson s.checks)]

/-- Embedding of `check_disk_encryption`: per-platform substring test of the tool output;
every branch catches exceptions and returns `False`. -/
def check_disk_encryption (osType : String) (cmd : CmdResult) : Except PyError Bool :=
  if osType = "Windows" then
    match cmd with
    | .output out _ => .ok (pyIn "Protection On" out)
    | .raises => .ok false
  else if osType = "Darwin" then
    match cmd with
    | .output out _ => .ok (pyIn "FileVault is On" out)
    | .raises => .ok false
  else if osType = "Linux" then
    match cmd with
    | .output out _ => .ok (pyIn "crypto_LUKS" out)
    | .raises => .ok false
  else .ok false

/-- Embedding of `check_os_updates`: on Linux only the command string depends on the
distribution, the result handling is uniform; every branch catches
exceptions and returns `False`. -/
def check_os_updates (osType : String) (cmd : CmdResult) : Except PyError Bool :=
  if osType = "Windows" then
    match cmd with
    | .output out _ => .ok (pyIn "No updates found" out)
    | .raises => .ok false
  else if osType = "Darwin" then
    match cmd with
    | .output out _ => .ok (pyIn "No new software available" out)
    | .raises => .ok false
  else if osType = "Linux" then
    match cmd with
    | .output out rc => .ok (rc == 0 && pyIn "0 upgraded" out)
    | .raises => .ok false
  else .ok false

/-- Process names the Linux antivirus scan looks for. -/
def av_processes : List String := ["clamav", "sophos", "avast", "avg"]

/-- Linux scan loop of `check_antivirus`: `proc.info[name].lower()` raises
`AttributeError` when the name is `None`; there is no surrounding
try/except in the source. -/
def scanAvNames : List (Option String) → Except PyError Bool
  | [] => .ok false
  | none :: _ => .error .attributeError
  | some nm :: rest =>
    if av_processes.any (fun av => pyIn av (pyLower nm)) then .ok true
    else scanAvNames rest

/-- Embedding of `check_antivirus`: the Windows branch catches exceptions, the Darwin
branch returns `True`, and the Linux branch iterates over psutil processes
with no try/except, so an exception there propagates. -/
def check_antivirus (osType : String) (cmd : CmdResult) (ps : PsutilResult) :
    Except PyError Bool :=
  if osType = "Windows" then
    match cmd with
    | .output out _ => .ok (pyIn "True" out)
    | .raises => .ok false
  else if osType = "Darwin" then .ok true
  else if osType = "Linux" then
    match ps with
    | .procs names => scanAvNames names
    | .raises => .error .osError
  else .ok false

/-- Inner token scan of the Windows sleep check: after a `0x00000000` token,
try to hex-parse the next token; an `IndexError` or `ValueError` is passed
over and the scan continues. -/
def scanStandbyParts : List String → Option Bool
  | [] => none
  | p :: rest =>
    if p = "0x00000000" then
      match rest with
      | [] => none
      | q :: _ =>
        match parseHexInt q with
        | some n => some (decide (n ≤ 600))
        | none => scanStandbyParts rest
    else scanStandbyParts rest

/-- Line scan of the Windows sleep check: only lines mentioning both
`STANDBYIDLE` and `AC Power` are inspected. -/
def scanStandbyLines : List String → Option Bool
  | [] => none
  | line :: rest =>
    if pyIn "STANDBYIDLE" line && pyIn "AC Power" line then
      match scanStandbyParts (pySplitWs line) with
      | some b => some b
      | none => scanStandbyLines rest
    else scanStandbyLines rest

/-- Line scan of the macOS sleep check: on a line mentioning `sleep`, parse
token one as a decimal minute count; parse failures are passed over. -/
def scanPmsetLines : List String → Option Bool
  | [] => none
  | line :: rest =>
    if pyIn "sleep" line then
      match (pySplitWs line)[1]? with
      | some tok =>
        match parseDecInt tok with
        | some n => some (decide (n ≤ 10))
        | none => scanPmsetLines rest
      | none => scanPmsetLines rest
    else scanPmsetLines rest

/-- Embedding of `check_sleep_settings`: when a scan finds no verdict the function falls
through to the final `return False`; every branch catches exceptions and
returns `False`. The Linux branch only queries gsettings when
`/usr/bin/gsettings` exists. -/
def check_sleep_settings (osType : String) (cmd : CmdResult) (gsettingsExists : Bool) :
    Except PyError Bool :=
  if osType = "Windows" then
    match cmd with
    | .output out _ =>
      match scanStandbyLines (pySplitlines out) with
      | some b => .ok b
      | none => .ok false
    | .raises => .ok false
  else if osType = "Darwin" then
    match cmd with
    | .output out _ =>
      match scanPmsetLines (pySplitlines out) with
      | some b => .ok b
      | none => .ok false
    | .raises => .ok false
  else if osType = "Linux" then
    if gsettingsExists then
      match cmd with
      | .output out _ =>
        match parseDecInt (pyStrip out) with
        | some n => .ok (decide (n ≤ 600))
        | none => .ok false
      | .raises => .ok false
    else .ok false
  else .ok false

/-- Python equality between a boolean (a value of the freshly built checks
dict) and a parsed JSON value; Python counts `True == 1` and `False == 0`
as equal. -/
def pyEqBool (b : Bool) : Json → Bool
  | .bool b2 => b == b2
  | .num n => if b then n == 1 else n == 0
  | _ => false

/-- Python `==` between the checks dict built by `check_all` (always the
four boolean entries) and an arbitrary parsed JSON value: dicts are equal
iff they have the same key set and pairwise equal values, independent of
order; a dict never equals a non-dict. Field lists of `Json.obj` come from
`json.load`, so their keys are pairwise distinct. -/
def checksPyEq (c : Checks) : Json → Bool
  | .obj fs =>
    (match List.lookup "disk_encryption" fs with
     | some v => pyEqBool c.disk_encryption v
     | none => false) &&
    (match List.lookup "os_updated" fs with
     | some v => pyEqBool c.os_updated v
     | none => false) &&
    (match List.lookup "antivirus_active" fs with
     | some v => pyEqBool c.antivirus_active v
     | none => false) &&
    (match List.lookup "sleep_settings_compliant" fs with
     | some v => pyEqBool c.sleep_settings_compliant v
     | none => false) &&
    fs.all (fun kv => checksKeys.contains kv.fst)
  | _ => false

/-- Embedding of `has_state_changed`: a falsy `self.last_state` (the `None` set at
startup, but equally an empty dict or any other falsy loaded value) means
"changed"; otherwise only the two checks dicts are compared. Subscripting a
truthy non-dict raises `TypeError` and a missing `checks` key raises
`KeyError`. -/
def has_state_changed (lastState : Json) (current : Snapshot) : Except PyError Bool :=
  if truthy lastState = false then .ok true
  else
    match lastState with
    | .obj fs =>
      match List.lookup "checks" fs with
      | some lastChecks => .ok (!(checksPyEq current.checks lastChecks))
      | none => .error .keyError
    | _ => .error .typeError

/-- Outcome of the `requests.post` call inside `report_to_server`: a
response with a status code, or the call raised. -/
inductive ReportHttp where
  | status (code : Int)
  | raises
deriving DecidableEq, Repr

/-- Embedding of `report_to_server`: `True` exactly on HTTP 200; every other status and
every exception of the HTTP client is caught and yields `False`. -/
def report_to_server (http : ReportHttp) : Bool :=
  match http with
  | .status code => code == 200
  | .raises => false

/-- Content of the durable `last_state.json` file. -/
inductive FileState where
  | absent
  | content (j : Json)

/-- In-memory and on-disk state of a `SystemHealthMonitor` instance. -/
structure MonitorState where
  machine_id : String
  os_type : String
  lastState : Json
  lastStateFile : FileState

/-- External behavior of one cycle: the clock and platform version strings,
the outcome of each probe command, the psutil enumeration, the HTTP client
outcome, and whether the `_save_state` write succeeds. -/
structure CycleEnv where
  timestamp : String
  os_version : String
  diskSub : CmdResult
  updatesSub : CmdResult
  avSub : CmdResult
  sleepSub : CmdResult
  psutil : PsutilResult
  gsettingsExists : Bool
  http : ReportHttp
  saveOk : Bool

/-- Embedding of `check_all`: builds the snapshot dict, running the four probes in
source order; an exception escaping a probe aborts the construction. -/
def check_all (ms : MonitorState) (env : CycleEnv) : Except PyError Snapshot := do
  let d ← check_disk_encryption ms.os_type env.diskSub
  let u ← check_os_updates ms.os_type env.updatesSub
  let a ← check_antivirus ms.os_type env.avSub env.psutil
  let s ← check_sleep_settings ms.os_type env.sleepSub env.gsettingsExists
  pure { machine_id := ms.machine_id, timestamp := env.timestamp,
         os_type := ms.os_type, os_version := env.os_version,
         checks := { disk_encryption := d, os_updated := u,
                     antivirus_active := a, sleep_settings_compliant := s } }

/-- Result of one `run_periodic_check` call: normal return or a propagated
exception; either way the monitor state at exit and the number of HTTP POST
attempts made during the call are recorded. -/
inductive CycleOutcome where
  | ok (st : MonitorState) (attempts : Nat)
  | err (e : PyError) (st : MonitorState) (attempts : Nat)

/-- Monitor state at the moment `run_periodic_check` returns or raises. -/
def CycleOutcome.state : CycleOutcome → MonitorState
  | .ok st _ => st
  | .err _ st _ => st

/-- Number of HTTP POST attempts made during the call. -/
def CycleOutcome.attempts : CycleOutcome → Nat
  | .ok _ n => n
  | .err _ _ n => n

/-- Embedding of `run_periodic_check`: build the snapshot, diff against the last state,
report when changed, and only on a `True` report result assign
`self.last_state` and then write the state file. A failing write raises
after the in-memory assignment has already happened; nothing in the
function catches exceptions from the probes, the diff or the write. -/
def run_periodic_check (ms : MonitorState) (env : CycleEnv) : CycleOutcome :=
  match check_all ms env with
  | .error e => .err e ms 0
  | .ok current =>
    match has_state_changed ms.lastState current with
    | .error e => .err e ms 0
    | .ok true =>
      if report_to_server env.http then
        let ms2 : MonitorState := { ms with lastState := Snapshot.toJson current }
        if env.saveOk then
          .ok { ms2 with lastStateFile := .content (Snapshot.toJson current) } 1
        else
          .err .osError ms2 1
      else .ok ms 1
    | .ok false => .ok ms 0

/-- Fate of the daemon thread driving the periodic loop. -/
inductive DaemonResult where
  | alive (st : MonitorState)
  | died (e : PyError) (st : MonitorState) (remaining : Nat)

/-- The `run_daemon` loop of `start_monitoring`, run over a finite trace of
cycle environments: the body `time.sleep(...); self.run_periodic_check()`
has no exception handler, so a raising cycle terminates the thread with the
remaining cycles never executed. -/
def run_daemon (ms : MonitorState) : List CycleEnv → DaemonResult
  | [] => .alive ms
  | env :: rest =>
    match run_periodic_check ms env with
    | .ok st _ => run_daemon st rest
    | .err e st _ => .died e st rest.length

/-- Observable content of the `last_state.json` file as `_load_last_state`
encounters it: missing, present but raising on open/read/decode with
something other than `json.JSONDecodeError`, parsed to a value, or raising
`json.JSONDecodeError`. -/
inductive LastStateRead where
  | absent
  | readError
  | parsed (j : Json)
  | parseError

/-- Embedding of `_load_last_state`: a missing file and a `json.JSONDecodeError` both
fall through to `return None`; only `json.JSONDecodeError` is caught, so
any other exception while opening or reading propagates. -/
def load_last_state : LastStateRead → Except PyError Json
  | .absent => .ok .null
  | .readError => .error .osError
  | .parsed j => .ok j
  | .parseError => .ok .null

/-- Content of the durable `machine_id.txt` file. -/
inductive IdFile where
  | absent
  | content (s : String)
deriving DecidableEq

/-- Embedding of `_get_machine_id` over the identity file, with the value
`str(uuid.uuid4())` the generator would produce passed as an oracle:
an existing file is read and returned stripped of surrounding whitespace
and is never rewritten; a missing file receives the freshly generated
identifier. Returns the value together with the file content afterwards. -/
def get_machine_id : IdFile → String → String × IdFile
  | .content s, _ => (pyStrip s, .content s)
  | .absent, genId => (genId, .content genId)

/-! ## Helper lemmas about the dict comparison -/

/-- Comparing the fresh checks dict with the JSON rendering of another
checks dict is exactly record equality. -/
theorem checksPyEq_toJson (c c2 : Checks) :
    checksPyEq c (Checks.toJson c2) = decide (c = c2) := by
  obtain ⟨a, b, d, e⟩ := c
  obtain ⟨a2, b2, d2, e2⟩ := c2
  revert a b d e a2 b2 d2 e2
  decide

/-- Looking a key up in an association list is unchanged by permutation,
provided the keys are pairwise distinct. -/
theorem lookup_perm (k : String) : {l1 l2 : List (String × Json)} → l1.Perm l2 →
    (l2.map Prod.fst).Nodup → List.lookup k l1 = List.lookup k l2 := by
  intro l1 l2 h
  induction h with
  | nil => intro _; rfl
  | cons x h2 ih =>
    intro nd
    obtain ⟨a, v⟩ := x
    simp only [List.map_cons, List.nodup_cons] at nd
    simp only [List.lookup]
    cases k == a
    · exact ih nd.2
    · rfl
  | swap x y l =>
    intro nd
    obtain ⟨a, v⟩ := x
    obtain ⟨b, w⟩ := y
    simp only [List.map_cons, List.nodup_cons, List.mem_cons, not_or] at nd
    obtain ⟨⟨hab, _⟩, _⟩ := nd
    simp only [List.lookup]
    cases hka : k == a <;> cases hkb : k == b <;> simp [hka, hkb]
    exact absurd ((eq_of_beq hka).symm.trans (eq_of_beq hkb)) hab
  | trans h1 h2 ih1 ih2 =>
    intro nd
    exact (ih1 (((h2.map Prod.fst).nodup_iff).mpr nd)).trans (ih2 nd)

/-- A boolean `all` over a list is unchanged by permutation. -/
theorem all_perm {α : Type} (p : α → Bool) : {l1 l2 : List α} → l1.Perm l2 →
    l1.all p = l2.all p := by
  intro l1 l2 h
  induction h with
  | nil => rfl
  | cons x h2 ih => simp only [List.all_cons, ih]
  | swap x y l => cases hx : p x <;> cases hy : p y <;> simp [List.all_cons, hx, hy]
  | trans _ _ ih1 ih2 => exact ih1.trans ih2

/-- Dict comparison against any permutation of the rendered checks fields
is still record equality: the comparison is order independent. -/
theorem checksPyEq_perm (c c2 : Checks) {fs : List (String × Json)}
    (h : fs.Perm (checksFields c2)) : checksPyEq c (.obj fs) = decide (c = c2) := by
  have nd : ((checksFields c2).map Prod.fst).Nodup := by
    have he : (checksFields c2).map Prod.fst = checksKeys := rfl
    rw [he]
    decide
  have h1 := lookup_perm "disk_encryption" h nd
  have h2 := lookup_perm "os_updated" h nd
  have h3 := lookup_perm "antivirus_active" h nd
  have h4 := lookup_perm "sleep_settings_compliant" h nd
  have h5 := all_perm (fun kv => checksKeys.contains kv.fst) h
  have hgoal : checksPyEq c (.obj fs) = checksPyEq c (Checks.toJson c2) := by
    simp only [checksPyEq, Checks.toJson, h1, h2, h3, h4, h5]
  rw [hgoal, checksPyEq_toJson]

/-- Diffing against a persisted snapshot reduces to comparing the two
checks records; no other snapshot field enters. -/
theorem has_state_changed_toJson (prev current : Snapshot) :
    has_state_changed (Snapshot.toJson prev) current
      = .ok (decide (current.checks ≠ prev.checks)) := by
  have h0 : has_state_changed (Snapshot.toJson prev) current
      = .ok (!(checksPyEq current.checks (Checks.toJson prev.checks))) := rfl
  rw [h0, checksPyEq_toJson, decide_not]

/-! ## Concrete fixtures used by witnesses and counterexamples -/

/-- A snapshot standing for the previously persisted state. -/
def prevA : Snapshot :=
  { machine_id := "m", timestamp := "t0", os_type := "Darwin", os_version := "v",
    checks := { disk_encryption := true, os_updated := true,
                antivirus_active := true, sleep_settings_compliant := true } }

/-- A later snapshot with the same checks but a newer timestamp. -/
def curA : Snapshot :=
  { machine_id := "m", timestamp := "t1", os_type := "Darwin", os_version := "v",
    checks := { disk_encryption := true, os_updated := true,
                antivirus_active := true, sleep_settings_compliant := true } }

/-! ## C1 -/

/-- C1: against an absent previous state `has_state_changed` is true; against
a persisted snapshot it is true exactly when the checks records differ, for
any permutation of the stored checks fields (order-independent structural
comparison), and the timestamp and platform descriptor fields of the
previous snapshot play no role. -/
theorem has_state_changed_correct (prev current : Snapshot) :
    has_state_changed Json.null current = .ok true ∧
    has_state_changed (Snapshot.toJson prev) current
      = .ok (decide (current.checks ≠ prev.checks)) ∧
    (∀ prev2 : Snapshot, prev2.checks = prev.checks →
      has_state_changed (Snapshot.toJson prev2) current
        = has_state_changed (Snapshot.toJson prev) current) ∧
    (∀ fs : List (String × Json), fs.Perm (checksFields prev.checks) →
      has_state_changed (Json.obj [("machine_id", Json.str prev.machine_id),
          ("timestamp", Json.str prev.timestamp),
          ("os_type", Json.str prev.os_type),
          ("os_version", Json.str prev.os_version),
          ("checks", Json.obj fs)]) current
        = .ok (decide (current.checks ≠ prev.checks))) := by
  refine ⟨rfl, has_state_changed_toJson prev current, ?_, ?_⟩
  · intro prev2 hp
    rw [has_state_changed_toJson, has_state_changed_toJson, hp]
  · intro fs hfs
    have h0 : has_state_changed (Json.obj [("machine_id", Json.str prev.machine_id),
        ("timestamp", Json.str prev.timestamp),
        ("os_type", Json.str prev.os_type),
        ("os_version", Json.str prev.os_version),
        ("checks", Json.obj fs)]) current
        = .ok (!(checksPyEq current.checks (Json.obj fs))) := rfl
    rw [h0, checksPyEq_perm current.checks prev.checks hfs, decide_not]

/-- Witness for C1: concrete previous snapshot stored with its checks
fields in reversed order still compares equal to a current snapshot with
identical checks, so nothing is reported. -/
theorem has_state_changed_correct_witness :
    has_state_changed (Json.obj [("machine_id", Json.str prevA.machine_id),
        ("timestamp", Json.str prevA.timestamp),
        ("os_type", Json.str prevA.os_type),
        ("os_version", Json.str prevA.os_version),
        ("checks", Json.obj (checksFields prevA.checks).reverse)]) curA
      = .ok false := by
  have h := (has_state_changed_correct prevA curA).2.2.2
      ((checksFields prevA.checks).reverse) (List.reverse_perm _)
  have he : decide (curA.checks ≠ prevA.checks) = false := by decide
  rw [he] at h
  exact h

/-! ## C9 -/

/-- C9: every falsy stored last state (Python `None`, but also an empty
dict, empty list, empty string, zero or `False`) makes `has_state_changed`
return true without inspecting the current snapshot. -/
theorem falsy_last_state_forces_report (lastState : Json) (current : Snapshot)
    (h : truthy lastState = false) :
    has_state_changed lastState current = .ok true := by
  simp [has_state_changed, h]

/-- Witness for C9: the empty dict, as persisted by an empty JSON object in
the last-state file, forces a report. -/
theorem falsy_last_state_forces_report_witness :
    truthy (Json.obj []) = false ∧
    has_state_changed (Json.obj []) curA = .ok true :=
  ⟨rfl, falsy_last_state_forces_report (Json.obj []) curA rfl⟩

/-- Previous snapshot whose checks match what an idle Darwin host reports
(empty probe outputs give false, false, true, false). -/
def prevB : Snapshot :=
  { machine_id := "m", timestamp := "t0", os_type := "Darwin", os_version := "v",
    checks := { disk_encryption := false, os_updated := false,
                antivirus_active := true, sleep_settings_compliant := false } }

/-- The snapshot `check_all` builds on that Darwin host. -/
def curB : Snapshot :=
  { machine_id := "m", timestamp := "t1", os_type := "Darwin", os_version := "v",
    checks := { disk_encryption := false, os_updated := false,
                antivirus_active := true, sleep_settings_compliant := false } }

/-- A monitor on Darwin that has already persisted `prevB`. -/
def msD : MonitorState :=
  { machine_id := "m", os_type := "Darwin",
    lastState := Snapshot.toJson prevB,
    lastStateFile := .content (Snapshot.toJson prevB) }

/-- A benign cycle environment: probe commands return empty output, the
collector answers 200, the state file write succeeds. -/
def envA : CycleEnv :=
  { timestamp := "t1", os_version := "v",
    diskSub := .output "" 0, updatesSub := .output "" 0,
    avSub := .output "" 0, sleepSub := .output "" 0,
    psutil := .procs [], gsettingsExists := false,
    http := .status 200, saveOk := true }

/-- The same environment except the collector answers HTTP 503. -/
def env503 : CycleEnv :=
  { envA with http := .status 503 }

/-! ## C2 -/

/-- C2: the persisted state (memory and file) is overwritten with the
current snapshot only after `report_to_server` returns `True`; whenever the
report fails the whole monitor state is left unchanged, so the next cycle
recomputes the same diff. -/
theorem commit_iff_report_success (ms : MonitorState) (env : CycleEnv) :
    (report_to_server env.http = false → (run_periodic_check ms env).state = ms) ∧
    ((run_periodic_check ms env).state.lastStateFile ≠ ms.lastStateFile →
      report_to_server env.http = true ∧
      ∃ current, check_all ms env = .ok current ∧
        (run_periodic_check ms env).state.lastStateFile
          = FileState.content (Snapshot.toJson current) ∧
        (run_periodic_check ms env).state.lastState = Snapshot.toJson current) ∧
    ((run_periodic_check ms env).state.lastState ≠ ms.lastState →
      report_to_server env.http = true) := by
  rcases hall : check_all ms env with e | current
  · simp [run_periodic_check, hall, CycleOutcome.state]
  · rcases hch : has_state_changed ms.lastState current with e | b
    · simp [run_periodic_check, hall, hch, CycleOutcome.state]
    · cases b
      · simp [run_periodic_check, hall, hch, CycleOutcome.state]
      · cases hrep : report_to_server env.http
        · simp [run_periodic_check, hall, hch, hrep, CycleOutcome.state]
        · cases hsave : env.saveOk
          · simp [run_periodic_check, hall, hch, hrep, hsave, CycleOutcome.state]
          · simp [run_periodic_check, hall, hch, hrep, hsave, CycleOutcome.state]

/-- Witness for C2: with the collector answering 503, the cycle leaves the
monitor state exactly as it was. -/
theorem commit_iff_report_success_witness :
    (run_periodic_check msD env503).state = msD :=
  (commit_iff_report_success msD env503).1 (by decide)

/-! ## C6 -/

/-- C6: when the freshly built snapshot has the same checks record as the
persisted previous snapshot, the cycle makes zero HTTP POST attempts and
returns with the monitor state untouched. -/
theorem skip_when_unchanged (ms : MonitorState) (env : CycleEnv)
    (prev current : Snapshot)
    (hlast : ms.lastState = Snapshot.toJson prev)
    (hall : check_all ms env = .ok current)
    (heq : current.checks = prev.checks) :
    run_periodic_check ms env = .ok ms 0 := by
  have hch : has_state_changed ms.lastState current = .ok false := by
    rw [hlast, has_state_changed_toJson, heq]
    simp
  simp [run_periodic_check, hall, hch]

/-- Witness for C6: the idle Darwin host reproduces the persisted checks,
so the cycle skips. -/
theorem skip_when_unchanged_witness :
    run_periodic_check msD envA = .ok msD 0 :=
  skip_when_unchanged msD envA prevB curB rfl (by rfl) rfl

/-- A monitor on Linux with no previous state. -/
def msLinux : MonitorState :=
  { machine_id := "m", os_type := "Linux",
    lastState := .null, lastStateFile := .absent }

/-- A Linux cycle environment in which the psutil process enumeration
raises. -/
def envBad : CycleEnv :=
  { envA with psutil := .raises }

/-! ## C3 (code bug): the Linux antivirus probe can raise -/

/-- C3 evaluation at the failing input: on Linux, when
`psutil.process_iter` raises, `check_antivirus` propagates the exception
instead of degrading to `False` — the Linux branch is the only probe
branch without a try/except. -/
theorem check_antivirus_linux_raises :
    check_antivirus "Linux" (CmdResult.output "" 0) PsutilResult.raises
      = .error .osError ∧
    check_antivirus "Linux" (CmdResult.output "" 0) (PsutilResult.procs [none])
      = .error .attributeError ∧
    check_all msLinux envBad = .error .osError := by
  exact ⟨rfl, rfl, by rfl⟩

/-! ## C4 (corrected): an in-cycle exception kills the loop -/

/-- Counterexample for C4: a single raising cycle terminates the daemon
loop with the remaining cycle never executed — the loop does not continue
to the next interval. -/
theorem run_daemon_dies :
    run_daemon msLinux [envBad, envA] = .died .osError msLinux 1 := by
  rfl

/-- C4 as amended: the loop body has no exception handler, so a cycle that
returns normally continues the loop and a cycle that raises terminates it,
with every remaining cycle unprocessed. -/
theorem run_daemon_step (ms : MonitorState) (env : CycleEnv) (rest : List CycleEnv) :
    (∀ e st n, run_periodic_check ms env = .err e st n →
      run_daemon ms (env :: rest) = .died e st rest.length) ∧
    (∀ st n, run_periodic_check ms env = .ok st n →
      run_daemon ms (env :: rest) = run_daemon st rest) := by
  constructor
  · intro e st n h
    simp [run_daemon, h]
  · intro st n h
    simp [run_daemon, h]

/-- Witness for C4: the raising Linux cycle, at the head of a one-element
trace, dies with zero cycles left. -/
theorem run_daemon_step_witness :
    run_daemon msLinux [envBad] = .died .osError msLinux 0 :=
  (run_daemon_step msLinux envBad []).1 .osError msLinux 0 (by rfl)

/-! ## C5 (corrected): only exactly HTTP 200 is success -/

/-- Counterexample for C5: the 2xx status 201 is not classified as
success. -/
theorem report_201_not_success :
    report_to_server (ReportHttp.status 201) = false := rfl

/-- C5 as amended: exactly HTTP 200 is classified as success; every other
status and every HTTP-client exception yields `False`, and a cycle makes at
most one POST attempt, so a failure is retried only on the next scheduled
cycle. -/
theorem report_classification :
    (∀ code : Int, report_to_server (ReportHttp.status code) = (code == 200)) ∧
    report_to_server ReportHttp.raises = false ∧
    ∀ (ms : MonitorState) (env : CycleEnv),
      (run_periodic_check ms env).attempts ≤ 1 := by
  refine ⟨fun _ => rfl, rfl, fun ms env => ?_⟩
  rcases hall : check_all ms env with e | current
  · simp [run_periodic_check, hall, CycleOutcome.attempts]
  · rcases hch : has_state_changed ms.lastState current with e | b
    · simp [run_periodic_check, hall, hch, CycleOutcome.attempts]
    · cases b
      · simp [run_periodic_check, hall, hch, CycleOutcome.attempts]
      · cases hrep : report_to_server env.http
        · simp [run_periodic_check, hall, hch, hrep, CycleOutcome.attempts]
        · cases hsave : env.saveOk <;>
            simp [run_periodic_check, hall, hch, hrep, hsave, CycleOutcome.attempts]

/-! ## C10: the reporter is total over HTTP client behavior -/

/-- C10: `report_to_server` always returns a boolean — `True` on the status
200 response, `False` on every other status and on every exception raised
by the HTTP client. -/
theorem report_to_server_total :
    report_to_server (ReportHttp.status 200) = true ∧
    report_to_server ReportHttp.raises = false ∧
    ∀ code : Int, code ≠ 200 → report_to_server (ReportHttp.status code) = false := by
  refine ⟨rfl, rfl, fun code h => ?_⟩
  exact beq_eq_false_iff_ne.mpr h

/-- Witness for C10 at a concrete non-200 status. -/
theorem report_to_server_total_witness :
    (502 : Int) ≠ 200 ∧ report_to_server (ReportHttp.status 502) = false :=
  ⟨by decide, report_to_server_total.2.2 502 (by decide)⟩

/-! ## C7 (corrected): only JSONDecodeError is absorbed -/

/-- Counterexample for C7: an existing but unreadable last-state file makes
`_load_last_state` raise instead of degrading to Absent. -/
theorem load_last_state_unreadable_raises :
    load_last_state LastStateRead.readError = .error .osError := rfl

/-- C7 as amended: an absent file and JSON-undecodable content both degrade
to `None` (treat everything as changed); a parsed document is returned as
loaded. Only a read failure on an existing file propagates. -/
theorem load_last_state_degrades :
    load_last_state LastStateRead.absent = .ok .null ∧
    load_last_state LastStateRead.parseError = .ok .null ∧
    ∀ j : Json, load_last_state (LastStateRead.parsed j) = .ok j :=
  ⟨rfl, rfl, fun _ => rfl⟩

/-! ## C8 (corrected): identity is stable but returned stripped -/

/-- Counterexample for C8: a stored identity carrying surrounding
whitespace is not returned verbatim. -/
theorem get_machine_id_not_verbatim :
    (get_machine_id (IdFile.content " abc ") "gen").fst ≠ " abc " := by
  decide

/-- C8 as amended: while the identity file exists its stored value is
returned stripped of surrounding whitespace and the file is never
rewritten, so sequential calls agree; after deleting the file a call
returns the freshly generated identifier (which differs from the previous
result whenever the generator output differs from the stripped stored
value). -/
theorem get_machine_id_stable (s g g2 : String) :
    (get_machine_id (IdFile.content s) g).fst = pyStrip s ∧
    (get_machine_id (IdFile.content s) g).snd = IdFile.content s ∧
    (get_machine_id ((get_machine_id (IdFile.content s) g).snd) g2).fst
      = (get_machine_id (IdFile.content s) g).fst ∧
    get_machine_id IdFile.absent g = (g, IdFile.content g) ∧
    (pyStrip g = g →
      (get_machine_id ((get_machine_id IdFile.absent g).snd) g2).fst = g) ∧
    (g ≠ pyStrip s →
      (get_machine_id IdFile.absent g).fst ≠ (get_machine_id (IdFile.content s) g2).fst) := by
  refine ⟨rfl, rfl, rfl, rfl, fun h => ?_, fun h => ?_⟩
  · exact h
  · exact h

/-- Witness for C8: a freshly generated identifier is returned as is,
agrees with the value read back on the next call, and differs from the
identity another store would have produced. -/
theorem get_machine_id_stable_witness :
    pyStrip "id-one" = "id-one" ∧
    ("id-one" : String) ≠ pyStrip "abc" ∧
    (get_machine_id ((get_machine_id IdFile.absent "id-one").snd) "x").fst = "id-one" ∧
    (get_machine_id IdFile.absent "id-one").fst
      ≠ (get_machine_id (IdFile.content "abc") "x").fst := by
  refine ⟨by decide, by decide, ?_, ?_⟩
  · exact (get_machine_id_stable "abc" "id-one" "x").2.2.2.2.1 (by decide)
  · exact (get_machine_id_stable "abc" "id-one" "x").2.2.2.2.2 (by decide)
